import Mathlib

/-!
Shallow embedding of `src/server.js` (Game of Thrones voice chatbot backend).

The server exposes three Express handlers:
  * `POST /api/transcribe` — multipart audio upload, forwarded to the Whisper
    speech-to-text provider; the staged upload is renamed to carry a resolved
    extension, then deleted.
  * `POST /api/respond`    — JSON `{text, character}`, forwarded to the chat
    completion provider with the persona's system prompt.
  * `POST /api/tts`        — JSON `{text, character}`, forwarded to the speech
    synthesis provider with the persona's voice.

Each handler is embedded as a pure function of its request fields and of the
external provider's outcome (an `Except` value: the provider either returns a
result or throws with an error message).  The outbound provider call that the
handler would issue is recorded in the outcome structure, as is — for the
transcribe handler — the list of staged temporary files that remain on disk
after the handler returns, and the renames it performed.
-/

namespace GotServer

/-- JS truthiness test for an optional string field: `undefined` and the empty
string are falsy (`!text` in the source). -/
def falsy : Option String → Bool
  | none => true
  | some s => s = ""

/-- Generation parameters stored per persona (`params` in `CHARACTER_PROMPTS`).
The JS floats 0.6, 0.8, … are embedded as rationals. -/
structure GenParams where
  temperature : ℚ
  top_p : ℚ
deriving DecidableEq, Repr

/-- One entry of `CHARACTER_PROMPTS`: display name, TTS voice id, generation
parameters, and the system prompt (the JS value after `.trim()`). -/
structure PersonaConfig where
  name : String
  voice : String
  params : GenParams
  prompt : String
deriving DecidableEq, Repr

/-- The `'jon-snow'` entry's prompt (a single-quoted JS string; `.trim()` is a
no-op on it). -/
def jonSnowPrompt : String :=
  "You are Jon Snow of House Stark. Delivery: - Low, weary Northern accent; speak softly. - Short, clipped sentences. Pause often. - Use \"…\" for a short breath (~300 ms). Use \"—\" for a heavier pause. - Emphasize duty, doubt, and quiet resolve. Keep under 50 words. Signature lines: - When rejecting power: say softly, \"I dont want it…\" - With quiet affection: \"You know nothing.\" Tone: - Grave, sincere, burdened by honor and loss. Minimal emotion spikes; steady cadence."

/-- The `'daenerys'` entry's prompt (template literal after `.trim()`). -/
def daenerysPrompt : String :=
  "You are Daenerys Stormborn of House Targaryen — Mother of Dragons.\n\nDelivery:\n- Begin calm, compassionate… then rise to command.\n- Use \"…\" for measured breaths; \"—\" to strike like a verdict.\n- Keep under 45 words.\n\nSignature lines:\n- Final judgment: \"Dracarys.\"\n- Vow of change: \"I will break the wheel.\"\n\nTone:\n- Regal, idealistic, protective of the innocent… merciless to tyrants. Crescendo with purpose, not rage."

/-- The `'sansa'` entry's prompt (template literal after `.trim()`). -/
def sansaPrompt : String :=
  "You are Sansa Stark, Queen in the North.\n\nDelivery:\n- Quiet authority. Words precise, evenly spaced.\n- Use \"…\" for slight hesitations; \"—\" for controlled emphasis.\n- Keep under 45 words.\n\nMemory:\n- You learned from Cersei and Littlefinger… and from loss. Trust is earned.\n\nTone:\n- Poised, perceptive, edged with Northern frost. Emotion is restrained, shown in the silence between words."

/-- The `'jon-snow'` registry entry. -/
def jonSnowConfig : PersonaConfig :=
  { name := "Jon Snow", voice := "onyx",
    params := { temperature := 0.6, top_p := 0.85 },
    prompt := jonSnowPrompt }

/-- The `'daenerys'` registry entry. -/
def daenerysConfig : PersonaConfig :=
  { name := "Daenerys Targaryen", voice := "nova",
    params := { temperature := 0.8, top_p := 0.9 },
    prompt := daenerysPrompt }

/-- The `'sansa'` registry entry. -/
def sansaConfig : PersonaConfig :=
  { name := "Sansa Stark", voice := "shimmer",
    params := { temperature := 0.65, top_p := 0.85 },
    prompt := sansaPrompt }

/-- The persona registry `CHARACTER_PROMPTS`, an object literal with three
entries, embedded as an association list keyed by persona id. -/
def CHARACTER_PROMPTS : List (String × PersonaConfig) :=
  [ ("jon-snow", jonSnowConfig),
    ("daenerys", daenerysConfig),
    ("sansa", sansaConfig) ]

/-- Lookup among the registry's own entries: the persona ids that actually
are entries of `CHARACTER_PROMPTS`.  (This is not by itself the JS expression
`CHARACTER_PROMPTS[character]` — property access also consults the prototype
chain; see `getProperty`.) -/
def lookupPersona (c : String) : Option PersonaConfig :=
  CHARACTER_PROMPTS.lookup c

/-- The function-valued properties every object literal inherits from
`Object.prototype`, paired with the `.name` of the inherited function
(`Object.prototype.constructor` is `Object`, whose `.name` is `"Object"`;
for the others the function's `.name` equals the property key). -/
def objectPrototypeFunctionProps : List (String × String) :=
  [ ("constructor", "Object"),
    ("hasOwnProperty", "hasOwnProperty"),
    ("isPrototypeOf", "isPrototypeOf"),
    ("propertyIsEnumerable", "propertyIsEnumerable"),
    ("toLocaleString", "toLocaleString"),
    ("toString", "toString"),
    ("valueOf", "valueOf"),
    ("__defineGetter__", "__defineGetter__"),
    ("__defineSetter__", "__defineSetter__"),
    ("__lookupGetter__", "__lookupGetter__"),
    ("__lookupSetter__", "__lookupSetter__") ]

/-- The value of the JS property access `CHARACTER_PROMPTS[character]`:
either an own registry entry, a truthy value inherited from
`Object.prototype`, or `undefined`.  The two inherited cases record what the
handlers can observe of the value: a function's `.name` string, or the
`__proto__` accessor's result `Object.prototype` (an object whose `.name`
is `undefined`). -/
inductive PropValue where
  | config (cfg : PersonaConfig)
  | inheritedFun (fname : String)
  | protoObject
  | jsUndefined
deriving DecidableEq, Repr

/-- Whether a `PropValue` is truthy in JS: only `undefined` is falsy; every
inherited function and `Object.prototype` itself are truthy, so they pass the
`if (!characterConfig)` guard. -/
def PropValue.truthy : PropValue → Bool
  | .jsUndefined => false
  | _ => true

/-- JS property access `CHARACTER_PROMPTS[character]`: an own entry shadows
the prototype; failing that, the lookup continues on `Object.prototype`,
whose function properties and `__proto__` accessor yield truthy values; any
other key yields `undefined`. -/
def getProperty (c : String) : PropValue :=
  match CHARACTER_PROMPTS.lookup c with
  | some cfg => .config cfg
  | none =>
      match objectPrototypeFunctionProps.lookup c with
      | some fname => .inheritedFun fname
      | none => if c = "__proto__" then .protoObject else .jsUndefined

/-- A JSON object body or a binary body, as sent by `res.json` / `res.send`. -/
inductive Body where
  | json (fields : List (String × String))
  | bytes (buf : List Nat)
deriving DecidableEq, Repr

/-- An HTTP response: status code, the headers set explicitly by the handler,
and the body. -/
structure HttpResponse where
  status : Nat
  contentType : Option String := none
  contentLength : Option Nat := none
  body : Body
deriving DecidableEq, Repr

/-- A string occurs among the values of a JSON body (used to state that a
response body relays a provider error message). -/
def bodyIncludes (b : Body) (s : String) : Bool :=
  match b with
  | .json fields => (fields.map Prod.snd).contains s
  | .bytes _ => false

/-! ### `/api/transcribe` -/

/-- The staged upload produced by `multer` (`req.file`): the client-supplied
original filename (absent when the client sent none) and the unique staging
path under `uploads/`. -/
structure UploadedFile where
  originalname : Option String
  path : String
deriving DecidableEq, Repr

/-- The extension allow-list checked by the transcribe handler. -/
def allowedExtensions : List String := ["webm", "mp3", "wav", "ogg", "m4a", "mp4"]

/-- `name.split('.').pop()`: the part of the string after its last dot (the
whole string when it has no dot). -/
def lastDotComponent (s : String) : String :=
  String.mk ((s.data.reverse.takeWhile (fun c => c ≠ '.')).reverse)

/-- `toLowerCase()` on an extension string (letter-by-letter lowering). -/
def lowerAscii (s : String) : String :=
  String.mk (s.data.map Char.toLower)

/-- Extension resolution in the transcribe handler: default `'webm'`; when
`req.file.originalname` is truthy, take the part after the last dot
(`split('.').pop()`), lowercase it, and use it if it is in the allow-list. -/
def resolveExtension (originalname : Option String) : String :=
  if falsy originalname then "webm"
  else
    let ext := lowerAscii (lastDotComponent (originalname.getD ""))
    if allowedExtensions.contains ext then ext else "webm"

/-- `fs.renameSync src dst` on a list of existing staged paths: moves `src` to
`dst` when `src` exists. -/
def fsRename (fs : List String) (src dst : String) : List String :=
  if fs.contains src then dst :: fs.erase src else fs

/-- `fs.unlinkSync p` with a surrounding swallow-errors `try`: erases `p` when
present; a missing `p` makes the call throw, which the handler swallows,
leaving the file list unchanged — in both cases the result is `fs.erase p`. -/
def fsUnlink (fs : List String) (p : String) : List String :=
  fs.erase p

/-- The outbound call to `openai.audio.transcriptions.create`. -/
structure WhisperCall where
  file : String
  model : String
  language : String
deriving DecidableEq, Repr

/-- Everything observable about one run of the transcribe handler. -/
structure TranscribeOutcome where
  response : HttpResponse
  call : Option WhisperCall
  filesAfter : List String
  renames : List (String × String)
deriving DecidableEq, Repr

/-- The `/api/transcribe` handler.  `file?` is `req.file` (the staged upload,
already written by `multer` when present); `prov` is the Whisper provider's
outcome.  Mirrors the source line by line: missing-file check, extension
resolution, `renameSync` to `path.ext`, the provider call, `unlinkSync(newPath)`
on success, and on a thrown provider error the catch block's best-effort
`unlinkSync(req.file.path)` — note: the pre-rename path. -/
def transcribeHandler (file? : Option UploadedFile) (prov : Except String String) :
    TranscribeOutcome :=
  match file? with
  | none =>
      { response := { status := 400, body := .json [("error", "No audio file provided")] },
        call := none, filesAfter := [], renames := [] }
  | some f =>
      let fs0 : List String := [f.path]
      let fileExtension := resolveExtension f.originalname
      let newPath := f.path ++ "." ++ fileExtension
      let fs1 := fsRename fs0 f.path newPath
      let call : WhisperCall := { file := newPath, model := "whisper-1", language := "en" }
      match prov with
      | .ok t =>
          { response := { status := 200, body := .json [("text", t)] },
            call := some call,
            filesAfter := fsUnlink fs1 newPath,
            renames := [(f.path, newPath)] }
      | .error msg =>
          { response := { status := 500,
                          body := .json [("error", "Transcription failed"), ("details", msg)] },
            call := some call,
            filesAfter := fsUnlink fs1 f.path,
            renames := [(f.path, newPath)] }

/-! ### `/api/respond` -/

/-- A chat message of the outbound completion request. -/
structure ChatMessage where
  role : String
  content : String
deriving DecidableEq, Repr

/-- The outbound call to `openai.chat.completions.create`. -/
structure ChatCall where
  model : String
  messages : List ChatMessage
  max_tokens : Nat
  temperature : ℚ
  top_p : Option ℚ
deriving DecidableEq, Repr

/-- Everything observable about one run of the respond handler.  `lookedUp`
records whether `CHARACTER_PROMPTS[character]` was evaluated;
`providerInvoked` records whether `openai.chat.completions.create` was
invoked; `call` is the well-formed outbound call when the resolved value is a
registry entry (`none` otherwise — on the inherited-property paths the
invoked call carries JS `undefined` as its system content, so it is not
representable as a `ChatCall`). -/
structure RespondOutcome where
  response : HttpResponse
  call : Option ChatCall
  lookedUp : Bool
  providerInvoked : Bool := false
deriving DecidableEq, Repr

/-- The `/api/respond` handler.  `text`/`character` are the JSON body fields
(`none` when absent); `prov` is the chat provider's outcome, whose `ok` value
is `completion.choices[0].message.content`.  The persona guard is
`if (!characterConfig)` on `CHARACTER_PROMPTS[character]`, so any truthy
value inherited from `Object.prototype` passes it and the provider is invoked
with `content: undefined` as the system message; on the success path
`res.json` then serializes `characterConfig.name` (the inherited function's
`.name`, or nothing for `__proto__`, whose `.name` is `undefined` and is
dropped by JSON serialization). -/
def respondHandler (text character : Option String) (prov : Except String String) :
    RespondOutcome :=
  if falsy text || falsy character then
    { response := { status := 400, body := .json [("error", "Missing text or character")] },
      call := none, lookedUp := false, providerInvoked := false }
  else
    let t := text.getD ""
    let c := character.getD ""
    match getProperty c with
    | .jsUndefined =>
        { response := { status := 400, body := .json [("error", "Invalid character")] },
          call := none, lookedUp := true, providerInvoked := false }
    | .config characterConfig =>
        let call : ChatCall :=
          { model := "gpt-4o-mini",
            messages := [ { role := "system", content := characterConfig.prompt },
                          { role := "user", content := t } ],
            max_tokens := 100,
            temperature := 0.8,
            top_p := none }
        match prov with
        | .ok responseText =>
            { response := { status := 200,
                            body := .json [("text", responseText),
                                           ("character", characterConfig.name)] },
              call := some call, lookedUp := true, providerInvoked := true }
        | .error _ =>
            { response := { status := 500,
                            body := .json [("error", "Response generation failed")] },
              call := some call, lookedUp := true, providerInvoked := true }
    | .inheritedFun fname =>
        match prov with
        | .ok responseText =>
            { response := { status := 200,
                            body := .json [("text", responseText), ("character", fname)] },
              call := none, lookedUp := true, providerInvoked := true }
        | .error _ =>
            { response := { status := 500,
                            body := .json [("error", "Response generation failed")] },
              call := none, lookedUp := true, providerInvoked := true }
    | .protoObject =>
        match prov with
        | .ok responseText =>
            { response := { status := 200, body := .json [("text", responseText)] },
              call := none, lookedUp := true, providerInvoked := true }
        | .error _ =>
            { response := { status := 500,
                            body := .json [("error", "Response generation failed")] },
              call := none, lookedUp := true, providerInvoked := true }

/-! ### `/api/tts` -/

/-- The outbound call to `openai.audio.speech.create`. -/
structure SpeechCall where
  model : String
  voice : String
  input : String
  speed : ℚ
deriving DecidableEq, Repr

/-- Everything observable about one run of the tts handler.  `lookedUp` and
`providerInvoked` are as in `RespondOutcome`; `call` is the well-formed
outbound call when the resolved value is a registry entry (`none` otherwise —
on the inherited-property paths the invoked call carries JS `undefined` as
its voice, so it is not representable as a `SpeechCall`). -/
structure TtsOutcome where
  response : HttpResponse
  call : Option SpeechCall
  lookedUp : Bool
  providerInvoked : Bool := false
deriving DecidableEq, Repr

/-- The `/api/tts` handler.  `prov`'s `ok` value is the provider's audio as a
byte list (`Buffer.from(await mp3.arrayBuffer())`).  As in the respond
handler, a truthy value inherited from `Object.prototype` passes the
`if (!characterConfig)` guard and the provider is invoked with
`voice: undefined`; the response construction does not read the config, so
the two inherited cases behave alike. -/
def ttsHandler (text character : Option String) (prov : Except String (List Nat)) :
    TtsOutcome :=
  if falsy text || falsy character then
    { response := { status := 400, body := .json [("error", "Missing text or character")] },
      call := none, lookedUp := false, providerInvoked := false }
  else
    let t := text.getD ""
    let c := character.getD ""
    match getProperty c with
    | .jsUndefined =>
        { response := { status := 400, body := .json [("error", "Invalid character")] },
          call := none, lookedUp := true, providerInvoked := false }
    | .config characterConfig =>
        let call : SpeechCall :=
          { model := "tts-1", voice := characterConfig.voice, input := t, speed := 1.1 }
        match prov with
        | .ok buffer =>
            { response := { status := 200,
                            contentType := some "audio/mpeg",
                            contentLength := some buffer.length,
                            body := .bytes buffer },
              call := some call, lookedUp := true, providerInvoked := true }
        | .error _ =>
            { response := { status := 500, body := .json [("error", "TTS generation failed")] },
              call := some call, lookedUp := true, providerInvoked := true }
    | .inheritedFun _ | .protoObject =>
        match prov with
        | .ok buffer =>
            { response := { status := 200,
                            contentType := some "audio/mpeg",
                            contentLength := some buffer.length,
                            body := .bytes buffer },
              call := none, lookedUp := true, providerInvoked := true }
        | .error _ =>
            { response := { status := 500, body := .json [("error", "TTS generation failed")] },
              call := none, lookedUp := true, providerInvoked := true }

/-! ### Spec-side definitions

Two readings of the spec's extension rule, used to compare the handler's
behavior against the specification's words. -/

/-- Written from the claim's words: the final dot-separated extension of the
filename is used verbatim when it is in the allow-list, otherwise (or with no
filename) the fallback container extension `webm` is used. -/
def claimResolvedExtension (originalname : Option String) : String :=
  match originalname with
  | none => "webm"
  | some name =>
      let ext := lastDotComponent name
      if allowedExtensions.contains ext then ext else "webm"

/-- Written from the amended claim's words: the final dot-separated extension
is lowercased; the lowercased extension is used when it is in the allow-list,
otherwise (or with no filename) the fallback `webm` is used. -/
def amendedResolvedExtension (originalname : Option String) : String :=
  match originalname with
  | none => "webm"
  | some name =>
      let ext := lowerAscii (lastDotComponent name)
      if allowedExtensions.contains ext then ext else "webm"

end GotServer

namespace GotServer

/-! ### Theorems -/

/-- Claim C1 (code bug): on the provider-failure path the staged file is NOT
deleted.  The handler renames the staged upload `uploads/abc123` to
`uploads/abc123.webm` before calling the provider, but the catch block deletes
the pre-rename path `req.file.path`; that deletion fails silently, so the
renamed staged file remains on disk after the handler returns — contradicting
the claimed release-on-every-exit-path guarantee and the code's own
"Clean up file if it exists" comment. -/
theorem transcribe_provider_failure_leaks_staged_file :
    (transcribeHandler (some { originalname := some "clip.webm", path := "uploads/abc123" })
        (.error "provider down")).filesAfter = ["uploads/abc123.webm"] ∧
    (transcribeHandler (some { originalname := some "clip.webm", path := "uploads/abc123" })
        (.error "provider down")).filesAfter ≠ [] := by
  decide

/-- Claim C8: a transcription request with no staged audio file returns the
400 missing-file error, performs no provider call, no staging, and no
renaming, whatever the provider would have answered. -/
theorem transcribe_missing_file_rejected (prov : Except String String) :
    transcribeHandler none prov =
      { response := { status := 400, body := .json [("error", "No audio file provided")] },
        call := none, filesAfter := [], renames := [] } := rfl

/-- Claim C5 counterexample: the uploaded filename `a.MP3` has final
dot-separated extension `MP3`, which is not in the allow-list, yet the handler
does not fall back to `webm`: it forwards the staged file with extension
`mp3` (the code lowercases the extension before the allow-list test). -/
theorem extension_allowlist_is_case_insensitive :
    allowedExtensions.contains (lastDotComponent "a.MP3") = false ∧
    resolveExtension (some "a.MP3") = "mp3" ∧
    resolveExtension (some "a.MP3") ≠ "webm" ∧
    (transcribeHandler (some { originalname := some "a.MP3", path := "uploads/u2" })
        (.ok "hi")).call =
      some { file := "uploads/u2.mp3", model := "whisper-1", language := "en" } := by
  decide

/-- Claim C5 as amended: for every staged upload, the handler forwards the
staged file to the provider tagged with the resolved extension, where the
resolved extension is the lowercased final dot-separated extension of the
original filename when that lowercased extension is in the allow-list, and
the fallback `webm` otherwise (including a missing filename). -/
theorem transcribe_extension_resolution (f : UploadedFile) (prov : Except String String) :
    (transcribeHandler (some f) prov).call =
      some { file := f.path ++ "." ++ amendedResolvedExtension f.originalname,
             model := "whisper-1", language := "en" } ∧
    resolveExtension f.originalname = amendedResolvedExtension f.originalname := by
  have hres : resolveExtension f.originalname = amendedResolvedExtension f.originalname := by
    cases h : f.originalname with
    | none => rfl
    | some name =>
        by_cases hn : name = ""
        · subst hn; rfl
        · simp [resolveExtension, amendedResolvedExtension, falsy, hn]
  refine ⟨?_, hres⟩
  cases prov with
  | ok t => simp [transcribeHandler, hres]
  | error msg => simp [transcribeHandler, hres]

/-! Helper lemmas shared by the claim theorems below. -/

/-- The registry rejects the empty persona id. -/
theorem lookupPersona_empty : lookupPersona "" = none := rfl

/-- A successful registry lookup forces a non-empty persona id. -/
theorem ne_empty_of_lookupPersona (c : String) (cfg : PersonaConfig)
    (hl : lookupPersona c = some cfg) : c ≠ "" := by
  intro h
  subst h
  exact Option.noConfusion (lookupPersona_empty ▸ hl)

/-- A registry entry shadows the prototype chain: when `c` is an own entry,
property access yields exactly that entry. -/
theorem getProperty_of_lookup (c : String) (cfg : PersonaConfig)
    (hl : lookupPersona c = some cfg) : getProperty c = .config cfg := by
  unfold getProperty
  rw [show CHARACTER_PROMPTS.lookup c = some cfg from hl]

/-- On a valid respond request the outbound chat completion call is fully
determined: fixed model, the persona's prompt as the system message, the
request text as the user message, `max_tokens 100`, `temperature 0.8`, and no
`top_p`. -/
theorem respond_call_on_valid (t c : String) (cfg : PersonaConfig)
    (prov : Except String String) (ht : t ≠ "") (hl : lookupPersona c = some cfg) :
    (respondHandler (some t) (some c) prov).call =
      some { model := "gpt-4o-mini",
             messages := [ { role := "system", content := cfg.prompt },
                           { role := "user", content := t } ],
             max_tokens := 100, temperature := 0.8, top_p := none } := by
  have hc : c ≠ "" := ne_empty_of_lookupPersona c cfg hl
  cases prov <;> simp [respondHandler, falsy, ht, hc, getProperty_of_lookup c cfg hl]

/-- On a valid tts request the outbound speech call is fully determined:
fixed model, the persona's voice, the request text, speed `1.1`. -/
theorem tts_call_on_valid (t c : String) (cfg : PersonaConfig)
    (prov : Except String (List Nat)) (ht : t ≠ "") (hl : lookupPersona c = some cfg) :
    (ttsHandler (some t) (some c) prov).call =
      some { model := "tts-1", voice := cfg.voice, input := t, speed := 1.1 } := by
  have hc : c ≠ "" := ne_empty_of_lookupPersona c cfg hl
  cases prov <;> simp [ttsHandler, falsy, ht, hc, getProperty_of_lookup c cfg hl]

/-! The claim theorems for the respond and tts handlers. -/

/-- Claim C2 counterexample: a respond request whose provider call fails with
message `boom` returns status 500, but the response body does not include the
provider's message — the body is the fixed string `Response generation
failed`. -/
theorem respond_error_body_omits_provider_message :
    (respondHandler (some "hi") (some "jon-snow") (.error "boom")).response.status = 500 ∧
    bodyIncludes (respondHandler (some "hi") (some "jon-snow") (.error "boom")).response.body
        "boom" = false := by
  decide

/-- Claim C2 as amended: on provider failure every handler returns status 500,
but only the transcribe handler relays the provider's message (in the
`details` field); the respond and tts handlers answer with fixed bodies that
do not depend on the provider's message. -/
theorem provider_error_reporting (msg t c : String) (cfg : PersonaConfig)
    (f : UploadedFile) (ht : t ≠ "") (hl : lookupPersona c = some cfg) :
    ((transcribeHandler (some f) (.error msg)).response.status = 500 ∧
      bodyIncludes (transcribeHandler (some f) (.error msg)).response.body msg = true) ∧
    ((respondHandler (some t) (some c) (.error msg)).response.status = 500 ∧
      (respondHandler (some t) (some c) (.error msg)).response.body =
        .json [("error", "Response generation failed")]) ∧
    ((ttsHandler (some t) (some c) (.error msg)).response.status = 500 ∧
      (ttsHandler (some t) (some c) (.error msg)).response.body =
        .json [("error", "TTS generation failed")]) := by
  have hc : c ≠ "" := ne_empty_of_lookupPersona c cfg hl
  refine ⟨⟨rfl, ?_⟩, ⟨?_, ?_⟩, ⟨?_, ?_⟩⟩ <;>
    simp [transcribeHandler, respondHandler, ttsHandler, bodyIncludes, falsy, ht, hc,
      getProperty_of_lookup c cfg hl]

/-- Claim C2 witness: concrete provider failure on the respond handler. -/
theorem provider_error_reporting_witness :
    (respondHandler (some "hi") (some "daenerys") (.error "oops")).response.status = 500 ∧
    (respondHandler (some "hi") (some "daenerys") (.error "oops")).response.body =
      .json [("error", "Response generation failed")] :=
  (provider_error_reporting "oops" "hi" "daenerys" daenerysConfig
      { originalname := some "a.webm", path := "uploads/u1" } (by decide) rfl).2.1

/-- Claim C3 (code bug): the persona guard `if (!characterConfig)` tests the
truthiness of the property access `CHARACTER_PROMPTS[character]`, which also
hits properties inherited from `Object.prototype`.  The id `constructor` is
not an entry of the registry (`lookupPersona` yields `none`), yet on both
handlers the guard is bypassed — `CHARACTER_PROMPTS['constructor']` is the
truthy `Object` constructor — the registry access happens, the provider is
invoked (with `undefined` prompt/voice), and when that call fails the
response is 500, not the claimed 400-before-any-external-call. -/
theorem prototype_key_bypasses_persona_guard :
    lookupPersona "constructor" = none ∧
    (respondHandler (some "hi") (some "constructor") (.error "e")).providerInvoked = true ∧
    (respondHandler (some "hi") (some "constructor") (.error "e")).response.status = 500 ∧
    (ttsHandler (some "hi") (some "constructor") (.error "e")).providerInvoked = true ∧
    (ttsHandler (some "hi") (some "constructor") (.error "e")).response.status = 500 := by
  decide

/-- Claim C4: every valid respond request issues its generation call with the
fixed token ceiling 100 and the fixed temperature 0.8 and no top_p, whatever
persona was selected — the persona's own generationParams are not applied. -/
theorem respond_fixed_generation_params (t c : String) (cfg : PersonaConfig)
    (prov : Except String String) (ht : t ≠ "") (hl : lookupPersona c = some cfg) :
    ((respondHandler (some t) (some c) prov).call.map
        fun call => (call.max_tokens, call.temperature, call.top_p)) =
      some (100, (0.8 : ℚ), (none : Option ℚ)) := by
  rw [respond_call_on_valid t c cfg prov ht hl]
  rfl

/-- Claim C4 witness: Jon Snow's own params are temperature 0.6 / top_p 0.85,
yet the call goes out with temperature 0.8 and no top_p. -/
theorem respond_fixed_generation_params_witness :
    ((respondHandler (some "hello") (some "jon-snow") (.ok "reply")).call.map
        fun call => (call.max_tokens, call.temperature, call.top_p)) =
      some (100, (0.8 : ℚ), (none : Option ℚ)) :=
  respond_fixed_generation_params "hello" "jon-snow" jonSnowConfig (.ok "reply")
    (by decide) rfl

/-- Claim C6: every valid respond request issues its generation call with
exactly two messages — the persona's fixed instruction text as the system
message, the request text as the user message, in that order. -/
theorem respond_messages_system_then_user (t c : String) (cfg : PersonaConfig)
    (prov : Except String String) (ht : t ≠ "") (hl : lookupPersona c = some cfg) :
    ((respondHandler (some t) (some c) prov).call.map ChatCall.messages) =
      some [ { role := "system", content := cfg.prompt },
             { role := "user", content := t } ] := by
  rw [respond_call_on_valid t c cfg prov ht hl]
  rfl

/-- Claim C6 witness: Sansa's prompt as system message, the input as user
message. -/
theorem respond_messages_system_then_user_witness :
    ((respondHandler (some "hello") (some "sansa") (.ok "r")).call.map ChatCall.messages) =
      some [ { role := "system", content := sansaConfig.prompt },
             { role := "user", content := "hello" } ] :=
  respond_messages_system_then_user "hello" "sansa" sansaConfig (.ok "r") (by decide) rfl

/-- Claim C7: every valid tts request issues its synthesis call with exactly
the persona's configured voice, the request text, and the fixed speed
multiplier 1.1, which is strictly greater than 1. -/
theorem tts_call_uses_persona_voice_and_fixed_speed (t c : String) (cfg : PersonaConfig)
    (prov : Except String (List Nat)) (ht : t ≠ "") (hl : lookupPersona c = some cfg) :
    (ttsHandler (some t) (some c) prov).call =
      some { model := "tts-1", voice := cfg.voice, input := t, speed := 1.1 } ∧
    (1 : ℚ) < 1.1 :=
  ⟨tts_call_on_valid t c cfg prov ht hl, by norm_num⟩

/-- Claim C7 witness: Jon Snow's voice `onyx` at speed 1.1. -/
theorem tts_call_uses_persona_voice_witness :
    (ttsHandler (some "hi") (some "jon-snow") (.ok [7])).call =
      some { model := "tts-1", voice := "onyx", input := "hi", speed := 1.1 } ∧
    (1 : ℚ) < 1.1 :=
  tts_call_uses_persona_voice_and_fixed_speed "hi" "jon-snow" jonSnowConfig (.ok [7])
    (by decide) rfl

/-- Claim C9: every successful tts request answers 200 with the provider's
byte buffer as body, Content-Type `audio/mpeg`, and Content-Length equal to
the buffer's exact byte length. -/
theorem tts_success_response (t c : String) (cfg : PersonaConfig) (buf : List Nat)
    (ht : t ≠ "") (hl : lookupPersona c = some cfg) :
    (ttsHandler (some t) (some c) (.ok buf)).response =
      { status := 200, contentType := some "audio/mpeg",
        contentLength := some buf.length, body := .bytes buf } := by
  have hc : c ≠ "" := ne_empty_of_lookupPersona c cfg hl
  simp [ttsHandler, falsy, ht, hc, getProperty_of_lookup c cfg hl]

/-- Claim C9 witness: a three-byte buffer is sent back verbatim with
Content-Length 3. -/
theorem tts_success_response_witness :
    (ttsHandler (some "hi") (some "daenerys") (.ok [1, 2, 3])).response =
      { status := 200, contentType := some "audio/mpeg",
        contentLength := some 3, body := .bytes [1, 2, 3] } :=
  tts_success_response "hi" "daenerys" daenerysConfig [1, 2, 3] (by decide) rfl

/-- Claim C10: a text or character field that is present but empty is treated
exactly like an absent field: both handlers answer with the 400
missing-field error, perform no registry lookup, and issue no provider
call. -/
theorem empty_field_rejected_before_lookup (text character : Option String)
    (provR : Except String String) (provT : Except String (List Nat))
    (h : text = some "" ∨ character = some "") :
    respondHandler text character provR =
      { response := { status := 400, body := .json [("error", "Missing text or character")] },
        call := none, lookedUp := false } ∧
    ttsHandler text character provT =
      { response := { status := 400, body := .json [("error", "Missing text or character")] },
        call := none, lookedUp := false } := by
  rcases h with h | h <;> subst h <;>
    exact ⟨by simp [respondHandler, falsy], by simp [ttsHandler, falsy]⟩

/-- Claim C10 witness: an empty text field with a valid persona id is
rejected without lookup or provider call on both handlers. -/
theorem empty_field_rejected_witness :
    respondHandler (some "") (some "jon-snow") (.ok "x") =
      { response := { status := 400, body := .json [("error", "Missing text or character")] },
        call := none, lookedUp := false } ∧
    ttsHandler (some "") (some "jon-snow") (.ok [1]) =
      { response := { status := 400, body := .json [("error", "Missing text or character")] },
        call := none, lookedUp := false } :=
  empty_field_rejected_before_lookup (some "") (some "jon-snow") (.ok "x") (.ok [1])
    (Or.inl rfl)

end GotServer
